import Mathlib

/-!
Shallow embedding of `django-rest-friendship`, a thin REST adapter over the
external `django-friendship` library.  The source files are
`rest_friendship/views.py` and `rest_friendship/serializers.py`.

Modelling decisions:
* JSON request payloads (`request.data`) are association lists of
  string keys to string values; `data.get(k)` is `List.lookup`.
* The external library `friendship.models.Friend.objects` and the
  `FriendshipRequest` lifecycle methods are opaque to this repository, so
  they are modelled as a record of arbitrary functions (`FriendObjects`);
  theorems quantify over them.
* Python exceptions are the inductive `PyExc`; fallible code returns
  `Except PyExc _`.  `get_object_or_404` turns a zero-match lookup into
  `PyExc.http404` and a multi-match lookup into `PyExc.multipleObjects`,
  mirroring Django semantics.
* Each view action returns its HTTP outcome together with the list of
  calls it makes into the external friendship library (`LibCall`), so
  that delegation claims ("the view performs no check of its own") can be
  stated as facts about the trace.
-/

namespace RestFriendship

/-- A user of the host framework's auth subsystem: primary key, username,
email (the fields this repository reads). -/
structure User where
  pk : Nat
  username : String
  email : String
deriving DecidableEq, Repr

/-- `friendship.models.FriendshipRequest` as seen by this repository:
a pending request between two users, with a message, identified by `pk`. -/
structure FriendshipRequest where
  id : Nat
  from_user : User
  to_user : User
  message : String
deriving DecidableEq, Repr

/-- A JSON value, as produced by the web framework's renderer. -/
inductive Json where
  | null : Json
  | str : String → Json
  | num : Nat → Json
  | arr : List Json → Json
  | obj : List (String × Json) → Json

/-- The keys of a JSON object (empty for non-objects). -/
def Json.keys : Json → List String
  | .obj l => l.map Prod.fst
  | _ => []

/-- An HTTP response: status code and JSON body. -/
structure Response where
  status : Nat
  body : Json

/-- `{"message": s}`, the body shape the views use for plain messages. -/
def msgBody (s : String) : Json := Json.obj [("message", Json.str s)]

/-- Python exceptions relevant to this repository.  `alreadyExists` and
`alreadyFriends` are `friendship.exceptions.AlreadyExistsError` and
`AlreadyFriendsError`; `other` stands for any exception of another type
(type name, message). -/
inductive PyExc where
  | alreadyExists : String → PyExc
  | alreadyFriends : String → PyExc
  | http404 : PyExc
  | multipleObjects : PyExc
  | other : String → String → PyExc
deriving DecidableEq, Repr

/-- `str(e)` for the exceptions the views surface. -/
def PyExc.message : PyExc → String
  | .alreadyExists m => m
  | .alreadyFriends m => m
  | .http404 => "Not Found"
  | .multipleObjects => "MultipleObjectsReturned"
  | .other _ m => m

/-- The request payload: `request.data`, a JSON object of string fields. -/
def FormData := List (String × String)

/-- An incoming HTTP request: the authenticated `request.user` and the
parsed `request.data`. -/
structure Request where
  user : User
  data : List (String × String)

/-- The external library interface used by the views:
`friendship.models.Friend.objects` manager methods.  `add_friend` may
raise, the others return plainly. -/
structure FriendObjects where
  friends : User → List User
  are_friends : User → User → Bool
  add_friend : User → User → String → Except PyExc FriendshipRequest
  remove_friend : User → User → Bool
  unrejected_requests : User → List FriendshipRequest
  sent_requests : User → List FriendshipRequest
  rejected_requests : User → List FriendshipRequest

/-- A call made into the external friendship library (manager methods and
`FriendshipRequest` lifecycle methods), with its arguments. -/
inductive LibCall where
  | friends : User → LibCall
  | areFriends : User → User → LibCall
  | addFriend : User → User → String → LibCall
  | removeFriend : User → User → LibCall
  | unrejectedRequests : User → LibCall
  | sentRequests : User → LibCall
  | rejectedRequests : User → LibCall
  | acceptReq : FriendshipRequest → LibCall
  | rejectReq : FriendshipRequest → LibCall

/-- Outcome of a view action: the HTTP response (or a propagated
exception) together with the external-library calls it made, in order. -/
def ViewResult := Except PyExc Response × List LibCall

/-- The keyword arguments assembled by `get_user_from_friend_data` for the
`get_object_or_404(User, **user_data)` lookup. -/
structure UserData where
  username : Option String
  email : Option String
  id : Option String
deriving DecidableEq, Repr

/-- Builds `user_data` from the payload exactly as
`FriendViewSet.get_user_from_friend_data` does: `username` from the
payload's `username`, overwritten by `to_user` when present (kept for
compatibility), `email` from `email`, and `id` from `id` only when
`allow_id` is set. -/
def buildUserData (d : List (String × String)) (allow_id : Bool) : UserData :=
  let username0 := d.lookup "username"
  let username1 := match d.lookup "to_user" with
    | some v => some v
    | none => username0
  { username := username1
    email := d.lookup "email"
    id := if allow_id then d.lookup "id" else none }

/-- Whether a user satisfies every filter in `user_data` (Django ORM
filtering with the collected keyword arguments; the `id` value from the
payload is compared against the primary key). -/
def matchesUserData (c : UserData) (u : User) : Bool :=
  (match c.username with | none => true | some s => u.username == s) &&
  (match c.email with | none => true | some s => u.email == s) &&
  (match c.id with | none => true | some s => toString u.pk == s)

/-- `get_object_or_404(User, **user_data)`: exactly one matching row is
returned; zero raises Http404, several raise MultipleObjectsReturned. -/
def getUserOr404 (c : UserData) (db : List User) : Except PyExc User :=
  match db.filter (matchesUserData c) with
  | [u] => Except.ok u
  | [] => Except.error PyExc.http404
  | _ => Except.error PyExc.multipleObjects

/-- `FriendViewSet.get_user_from_friend_data`. -/
def get_user_from_friend_data (d : List (String × String)) (allow_id : Bool)
    (db : List User) : Except PyExc User :=
  getUserOr404 (buildUserData d allow_id) db

/-- `get_object_or_404(User, pk=pk)` as used by `retrieve`; a missing
`pk` keyword argument behaves as a failed lookup. -/
def getUserByPk (pk : Option String) (db : List User) : Except PyExc User :=
  match pk with
  | none => Except.error PyExc.http404
  | some s =>
    match db.filter (fun u => toString u.pk == s) with
    | [u] => Except.ok u
    | [] => Except.error PyExc.http404
    | _ => Except.error PyExc.multipleObjects

/-- `get_object_or_404(FriendshipRequest, pk=id)` as used by
`accept_request` and `reject_request`; `id` is `request.data.get('id',
None)` and `None` fails the lookup. -/
def getFRByPk (id : Option String) (db : List FriendshipRequest) :
    Except PyExc FriendshipRequest :=
  match id with
  | none => Except.error PyExc.http404
  | some s =>
    match db.filter (fun fr => toString fr.id == s) with
    | [fr] => Except.ok fr
    | [] => Except.error PyExc.http404
    | _ => Except.error PyExc.multipleObjects

namespace UserSerializer

/-- The `Meta.fields` declaration of `serializers.UserSerializer`. -/
def fields : List String := ["pk", "username", "email"]

/-- `serializers.UserSerializer`: a ModelSerializer over the user model
renders exactly the fields declared in `Meta.fields`. -/
def serialize (u : User) : Json :=
  Json.obj (fields.map (fun f =>
    (f, if f == "pk" then Json.num u.pk
        else if f == "username" then Json.str u.username
        else if f == "email" then Json.str u.email
        else Json.null)))

end UserSerializer

namespace FriendViewSet

/-- `FriendViewSet.list`: serializes `Friend.objects.friends(user=request.user)`
with the configured user serializer, many=True, default status 200.
(The assignments to `self.queryset` and `self.http_method_names` only set
viewset attributes and do not touch the response.) -/
def list_action (lib : FriendObjects) (userSer : User → Json)
    (req : Request) : ViewResult :=
  let friend_requests := lib.friends req.user
  (Except.ok ⟨200, Json.arr (friend_requests.map userSer)⟩,
   [LibCall.friends req.user])

/-- `FriendViewSet.retrieve`: sets the queryset from
`Friend.objects.friends` (a library call whose result the response never
uses), resolves the user by `pk`, then answers from the single
`Friend.objects.are_friends` call. -/
def retrieve (lib : FriendObjects) (userSer : User → Json) (req : Request)
    (pk : Option String) (db : List User) : ViewResult :=
  let c0 := LibCall.friends req.user
  match getUserByPk pk db with
  | Except.error e => (Except.error e, [c0])
  | Except.ok requested_user =>
    if lib.are_friends req.user requested_user then
      (Except.ok ⟨200, userSer requested_user⟩,
       [c0, LibCall.areFriends req.user requested_user])
    else
      (Except.ok ⟨400, msgBody "Friend relationship not found for user."⟩,
       [c0, LibCall.areFriends req.user requested_user])

/-- `FriendViewSet.requests`. -/
def requests (lib : FriendObjects) (frSer : FriendshipRequest → Json)
    (req : Request) : ViewResult :=
  (Except.ok ⟨200, Json.arr ((lib.unrejected_requests req.user).map frSer)⟩,
   [LibCall.unrejectedRequests req.user])

/-- `FriendViewSet.sent_requests`. -/
def sent_requests (lib : FriendObjects) (frSer : FriendshipRequest → Json)
    (req : Request) : ViewResult :=
  (Except.ok ⟨200, Json.arr ((lib.sent_requests req.user).map frSer)⟩,
   [LibCall.sentRequests req.user])

/-- `FriendViewSet.rejected_requests`. -/
def rejected_requests (lib : FriendObjects) (frSer : FriendshipRequest → Json)
    (req : Request) : ViewResult :=
  (Except.ok ⟨200, Json.arr ((lib.rejected_requests req.user).map frSer)⟩,
   [LibCall.rejectedRequests req.user])

/-- `FriendViewSet.add_friend`: resolves the target with `allow_id=False`,
calls `Friend.objects.add_friend(request.user, to_user,
message=request.data.get('message', ''))`, returns 201 with the
friendship request serialized by the configured friendship-request
serializer on success, and maps `AlreadyExistsError` and
`AlreadyFriendsError` (only) to 400 with the exception's message. -/
def add_friend (lib : FriendObjects) (frSer : FriendshipRequest → Json)
    (req : Request) (db : List User) : ViewResult :=
  match get_user_from_friend_data req.data false db with
  | Except.error e => (Except.error e, [])
  | Except.ok to_user =>
    let msg := (req.data.lookup "message").getD ""
    let call := LibCall.addFriend req.user to_user msg
    match lib.add_friend req.user to_user msg with
    | Except.ok friend_obj =>
      (Except.ok ⟨201, frSer friend_obj⟩, [call])
    | Except.error (PyExc.alreadyExists m) =>
      (Except.ok ⟨400, msgBody m⟩, [call])
    | Except.error (PyExc.alreadyFriends m) =>
      (Except.ok ⟨400, msgBody m⟩, [call])
    | Except.error e => (Except.error e, [call])

/-- `FriendViewSet.remove_friend`: resolves the target with
`allow_id=True`, then 204 "Friend deleted." when
`Friend.objects.remove_friend` is truthy, 400 "Friend not found."
otherwise. -/
def remove_friend (lib : FriendObjects) (req : Request) (db : List User) :
    ViewResult :=
  match get_user_from_friend_data req.data true db with
  | Except.error e => (Except.error e, [])
  | Except.ok to_user =>
    let call := LibCall.removeFriend req.user to_user
    if lib.remove_friend req.user to_user then
      (Except.ok ⟨204, msgBody "Friend deleted."⟩, [call])
    else
      (Except.ok ⟨400, msgBody "Friend not found."⟩, [call])

/-- `FriendViewSet.accept_request`: looks the request up by the payload's
`id`; 400 without any lifecycle call when its `to_user` is not the
requesting user, otherwise calls `accept()` and returns 201. -/
def accept_request (req : Request) (frDb : List FriendshipRequest) :
    ViewResult :=
  let id := req.data.lookup "id"
  match getFRByPk id frDb with
  | Except.error e => (Except.error e, [])
  | Except.ok friendship_request =>
    if ¬ (friendship_request.to_user = req.user) then
      (Except.ok ⟨400, msgBody "Request for current user not found."⟩, [])
    else
      (Except.ok ⟨201, msgBody "Request accepted, user added to friends."⟩,
       [LibCall.acceptReq friendship_request])

/-- `FriendViewSet.reject_request`: same lookup and ownership check as
`accept_request`, calling `reject()` in the success branch. -/
def reject_request (req : Request) (frDb : List FriendshipRequest) :
    ViewResult :=
  let id := req.data.lookup "id"
  match getFRByPk id frDb with
  | Except.error e => (Except.error e, [])
  | Except.ok friendship_request =>
    if ¬ (friendship_request.to_user = req.user) then
      (Except.ok ⟨400, msgBody "Request for current user not found."⟩, [])
    else
      (Except.ok ⟨201, msgBody "Request rejected, user NOT added to friends."⟩,
       [LibCall.rejectReq friendship_request])

end FriendViewSet

/-- Modelled from the spec: "Control flow: HTTP request → permission check
→ view action → external library call → serializer → HTTP response."
The dispatch machinery that evaluates the configured `permission_classes`
before the view action runs belongs to the host web framework and is not
under this repository's source; the spec sentence above fixes its shape:
every configured permission class is checked first, and a request that
fails the check is answered directly, the action never running. -/
def dispatch (permission_classes : List (Request → Bool)) (req : Request)
    (action : Unit → ViewResult) : ViewResult :=
  if permission_classes.all (fun p => p req) then action ()
  else (Except.ok ⟨403, Json.null⟩, [])

/-! Concrete fixtures used by witness theorems. -/

/-- A sample user. -/
def alice : User := ⟨1, "alice", "alice@example.com"⟩

/-- A sample user. -/
def bob : User := ⟨2, "bob", "bob@example.com"⟩

/-- A sample user table. -/
def db0 : List User := [alice, bob]

/-- A sample friendship request from alice to bob. -/
def fr0 : FriendshipRequest := ⟨7, alice, bob, "hi"⟩

/-- A sample behaviour of the external library: alice and bob are
friends, `add_friend` succeeds except on self-requests (where the
external library raises a validation error of some other type). -/
def lib0 : FriendObjects where
  friends := fun _ => [bob]
  are_friends := fun a b =>
    decide ((a = alice ∧ b = bob) ∨ (a = bob ∧ b = alice))
  add_friend := fun a b m =>
    if a = b then
      Except.error (PyExc.other "ValidationError" "Users cannot be friends with themselves")
    else Except.ok ⟨7, a, b, m⟩
  remove_friend := fun a b => decide (a = alice ∧ b = bob)
  unrejected_requests := fun _ => []
  sent_requests := fun _ => []
  rejected_requests := fun _ => []

/-- A variant library whose `add_friend` always raises
`AlreadyExistsError`. -/
def libAE : FriendObjects :=
  { lib0 with add_friend := fun _ _ _ =>
      Except.error (PyExc.alreadyExists "Friendship already requested") }

/-- A sample friendship-request serializer (the configured
`FRIENDSHIPREQUEST_SERIALIZER` is pluggable; any function works). -/
def frSer0 : FriendshipRequest → Json :=
  fun fr => Json.obj [("id", Json.num fr.id), ("message", Json.str fr.message)]

/-- C4: The default user serializer exposes exactly the three fields pk,
username, and email of the host framework's user model — no more and no
fewer — so every serialized user carries exactly this field set. -/
theorem C4_user_serializer_fields :
    UserSerializer.fields = ["pk", "username", "email"] ∧
    ∀ u : User, (UserSerializer.serialize u).keys = UserSerializer.fields := by
  exact ⟨rfl, fun u => rfl⟩

/-- C5: For every GET of the list action, the response body is exactly the
many-item serialization, by the configured user serializer, of the
external library's `Friend.objects.friends(user=request.user)` result, in
order, with no filtering, reordering, or transformation; the trace is that
single library call. -/
theorem C5_list_delegates (lib : FriendObjects) (userSer : User → Json)
    (req : Request) :
    FriendViewSet.list_action lib userSer req =
      (Except.ok ⟨200, Json.arr ((lib.friends req.user).map userSer)⟩,
       [LibCall.friends req.user]) := rfl

/-- C1: For every POST to add_friend whose data resolves to an existing
target user, the view performs no duplicate- or self-friendship check of
its own: its only library call is
`Friend.objects.add_friend(request.user, to_user, message)` with the
payload's message (empty string when absent), and on success it returns
HTTP 201 with the friendship request serialized by the configured
friendship-request serializer. -/
theorem C1_add_friend_delegates (lib : FriendObjects)
    (frSer : FriendshipRequest → Json) (req : Request) (db : List User)
    (to_user : User) (fr : FriendshipRequest)
    (hres : get_user_from_friend_data req.data false db = Except.ok to_user)
    (hadd : lib.add_friend req.user to_user ((req.data.lookup "message").getD "")
      = Except.ok fr) :
    FriendViewSet.add_friend lib frSer req db =
      (Except.ok ⟨201, frSer fr⟩,
       [LibCall.addFriend req.user to_user ((req.data.lookup "message").getD "")]) := by
  unfold FriendViewSet.add_friend
  rw [hres]
  simp only [hadd]

/-- C1 witness: with a concrete library and payload `{username: bob}`
(no message key), the request by alice resolves to bob, the library call
succeeds, and the view answers 201 with the serialized request. -/
theorem C1_witness :
    get_user_from_friend_data [("username", "bob")] false db0 = Except.ok bob ∧
    lib0.add_friend alice bob "" = Except.ok ⟨7, alice, bob, ""⟩ ∧
    FriendViewSet.add_friend lib0 frSer0 ⟨alice, [("username", "bob")]⟩ db0 =
      (Except.ok ⟨201, frSer0 ⟨7, alice, bob, ""⟩⟩,
       [LibCall.addFriend alice bob ""]) :=
  ⟨rfl, rfl,
   C1_add_friend_delegates lib0 frSer0 ⟨alice, [("username", "bob")]⟩ db0 bob
     ⟨7, alice, bob, ""⟩ rfl rfl⟩

/-- C3: For every GET of retrieve with a pk matching an existing user, the
response is the serialized requested user exactly when
`Friend.objects.are_friends(request.user, requested_user)` is true, and
otherwise HTTP 400 with "Friend relationship not found for user."; the
trace past resolution is the single `are_friends` call, so the outcome
depends on the library through that call alone. -/
theorem C3_retrieve_single_check (lib : FriendObjects) (userSer : User → Json)
    (req : Request) (pk : Option String) (db : List User)
    (requested_user : User)
    (hres : getUserByPk pk db = Except.ok requested_user) :
    (lib.are_friends req.user requested_user = true →
      FriendViewSet.retrieve lib userSer req pk db =
        (Except.ok ⟨200, userSer requested_user⟩,
         [LibCall.friends req.user,
          LibCall.areFriends req.user requested_user])) ∧
    (lib.are_friends req.user requested_user = false →
      FriendViewSet.retrieve lib userSer req pk db =
        (Except.ok ⟨400, msgBody "Friend relationship not found for user."⟩,
         [LibCall.friends req.user,
          LibCall.areFriends req.user requested_user])) := by
  unfold FriendViewSet.retrieve
  rw [hres]
  constructor
  · intro h
    simp only [h, if_true]
  · intro h
    simp only [h, Bool.false_eq_true, if_false]

/-- C3 witness: alice retrieves pk 2 (bob); they are friends under the
sample library, so the response is the serialized bob. -/
theorem C3_witness :
    getUserByPk (some "2") db0 = Except.ok bob ∧
    lib0.are_friends alice bob = true ∧
    FriendViewSet.retrieve lib0 UserSerializer.serialize
        ⟨alice, []⟩ (some "2") db0 =
      (Except.ok ⟨200, UserSerializer.serialize bob⟩,
       [LibCall.friends alice, LibCall.areFriends alice bob]) :=
  ⟨rfl, by decide,
   (C3_retrieve_single_check lib0 UserSerializer.serialize ⟨alice, []⟩
     (some "2") db0 bob rfl).1 (by decide)⟩

/-- The exception types named by the single `except` clause of the
repository (views.py line 113): `AlreadyExistsError` and
`AlreadyFriendsError`, nothing else. -/
def caughtByAddFriend : PyExc → Bool
  | PyExc.alreadyExists _ => true
  | PyExc.alreadyFriends _ => true
  | _ => false

/-- C2: The only exception types the repository catches are
`AlreadyExistsError` and `AlreadyFriendsError` (the predicate
`caughtByAddFriend` holds of exactly those); whenever
`Friend.objects.add_friend` raises one of them, add_friend answers HTTP
400 with the exception's message, and any other exception propagates out
of the view unmapped. -/
theorem C2_exception_mapping (lib : FriendObjects)
    (frSer : FriendshipRequest → Json) (req : Request) (db : List User)
    (to_user : User)
    (hres : get_user_from_friend_data req.data false db = Except.ok to_user) :
    (∀ e : PyExc, caughtByAddFriend e = true ↔
       (∃ s, e = PyExc.alreadyExists s ∨ e = PyExc.alreadyFriends s)) ∧
    (∀ e : PyExc,
       lib.add_friend req.user to_user ((req.data.lookup "message").getD "")
         = Except.error e →
       if caughtByAddFriend e then
         FriendViewSet.add_friend lib frSer req db =
           (Except.ok ⟨400, msgBody e.message⟩,
            [LibCall.addFriend req.user to_user
              ((req.data.lookup "message").getD "")])
       else
         FriendViewSet.add_friend lib frSer req db =
           (Except.error e,
            [LibCall.addFriend req.user to_user
              ((req.data.lookup "message").getD "")])) := by
  constructor
  · intro e
    cases e <;> simp [caughtByAddFriend]
  · intro e hadd
    unfold FriendViewSet.add_friend
    rw [hres]
    cases e <;> simp only [hadd, caughtByAddFriend, if_true, if_false,
      Bool.false_eq_true, PyExc.message]

/-- C2 witness: a library raising `AlreadyExistsError` makes add_friend
answer 400 with the exception's message, and the sample library's
self-request validation error (a different exception type) propagates
uncaught. -/
theorem C2_witness :
    get_user_from_friend_data [("username", "bob")] false db0 = Except.ok bob ∧
    libAE.add_friend alice bob "" =
      Except.error (PyExc.alreadyExists "Friendship already requested") ∧
    FriendViewSet.add_friend libAE frSer0 ⟨alice, [("username", "bob")]⟩ db0 =
      (Except.ok ⟨400, msgBody "Friendship already requested"⟩,
       [LibCall.addFriend alice bob ""]) ∧
    FriendViewSet.add_friend lib0 frSer0 ⟨alice, [("username", "alice")]⟩ db0 =
      (Except.error
        (PyExc.other "ValidationError" "Users cannot be friends with themselves"),
       [LibCall.addFriend alice alice ""]) :=
  ⟨rfl, rfl,
   (C2_exception_mapping libAE frSer0 ⟨alice, [("username", "bob")]⟩ db0 bob
      rfl).2 (PyExc.alreadyExists "Friendship already requested") rfl,
   (C2_exception_mapping lib0 frSer0 ⟨alice, [("username", "alice")]⟩ db0 alice
      rfl).2
     (PyExc.other "ValidationError" "Users cannot be friends with themselves")
     rfl⟩

/-- C6: For every POST to remove_friend whose data resolves to an existing
target user, the response is HTTP 204 "Friend deleted." exactly when
`Friend.objects.remove_friend(request.user, to_user)` is truthy, and HTTP
400 "Friend not found." otherwise. -/
theorem C6_remove_friend_mapping (lib : FriendObjects) (req : Request)
    (db : List User) (to_user : User)
    (hres : get_user_from_friend_data req.data true db = Except.ok to_user) :
    (lib.remove_friend req.user to_user = true →
      FriendViewSet.remove_friend lib req db =
        (Except.ok ⟨204, msgBody "Friend deleted."⟩,
         [LibCall.removeFriend req.user to_user])) ∧
    (lib.remove_friend req.user to_user = false →
      FriendViewSet.remove_friend lib req db =
        (Except.ok ⟨400, msgBody "Friend not found."⟩,
         [LibCall.removeFriend req.user to_user])) := by
  unfold FriendViewSet.remove_friend
  rw [hres]
  constructor
  · intro h
    simp only [h, if_true]
  · intro h
    simp only [h, Bool.false_eq_true, if_false]

/-- C6 witness: alice removes bob; the sample library reports the
friendship deleted, so the view answers 204 "Friend deleted.". -/
theorem C6_witness :
    get_user_from_friend_data [("username", "bob")] true db0 = Except.ok bob ∧
    lib0.remove_friend alice bob = true ∧
    FriendViewSet.remove_friend lib0 ⟨alice, [("username", "bob")]⟩ db0 =
      (Except.ok ⟨204, msgBody "Friend deleted."⟩,
       [LibCall.removeFriend alice bob]) :=
  ⟨rfl, by decide,
   (C6_remove_friend_mapping lib0 ⟨alice, [("username", "bob")]⟩ db0 bob
     rfl).1 (by decide)⟩

/-- C7: For every request to any viewset action, the configured permission
classes are checked before the action runs: when some configured
permission class rejects the request, the dispatch outcome is the bare
403 response with an empty library-call trace, identically for every
action body — so no external-library call and no serialization can have
taken place. -/
theorem C7_permissions_before_action (perms : List (Request → Bool))
    (req : Request)
    (hfail : perms.all (fun p => p req) = false) :
    ∀ action : Unit → ViewResult,
      dispatch perms req action = (Except.ok ⟨403, Json.null⟩, []) := by
  intro a
  unfold dispatch
  rw [hfail]
  simp only [Bool.false_eq_true, if_false]

/-- C7 witness: under a failing permission class, dispatching the
add_friend action of the sample setup produces the bare 403 and no
library call. -/
theorem C7_witness :
    ([fun _ => false] : List (Request → Bool)).all
      (fun p => p ⟨alice, [("username", "bob")]⟩) = false ∧
    dispatch [fun _ => false] ⟨alice, [("username", "bob")]⟩
      (fun _ => FriendViewSet.add_friend lib0 frSer0
        ⟨alice, [("username", "bob")]⟩ db0) =
      (Except.ok ⟨403, Json.null⟩, []) :=
  ⟨rfl,
   C7_permissions_before_action [fun _ => false]
     ⟨alice, [("username", "bob")]⟩ rfl
     (fun _ => FriendViewSet.add_friend lib0 frSer0
       ⟨alice, [("username", "bob")]⟩ db0)⟩

/-- C8: For every POST to accept_request or reject_request whose payload
id resolves to an existing friendship request: when the request's
`to_user` is not the requesting user the view answers HTTP 400 "Request
for current user not found." with no lifecycle call in the trace (the
request's state is untouched); when `to_user` is the requesting user the
view makes exactly the `accept()` (respectively `reject()`) call and
answers HTTP 201. -/
theorem C8_ownership_check (req : Request) (frDb : List FriendshipRequest)
    (fr : FriendshipRequest)
    (hres : getFRByPk (req.data.lookup "id") frDb = Except.ok fr) :
    (fr.to_user ≠ req.user →
      FriendViewSet.accept_request req frDb =
        (Except.ok ⟨400, msgBody "Request for current user not found."⟩, []) ∧
      FriendViewSet.reject_request req frDb =
        (Except.ok ⟨400, msgBody "Request for current user not found."⟩, [])) ∧
    (fr.to_user = req.user →
      FriendViewSet.accept_request req frDb =
        (Except.ok ⟨201, msgBody "Request accepted, user added to friends."⟩,
         [LibCall.acceptReq fr]) ∧
      FriendViewSet.reject_request req frDb =
        (Except.ok ⟨201, msgBody "Request rejected, user NOT added to friends."⟩,
         [LibCall.rejectReq fr])) := by
  constructor
  · intro hne
    constructor <;>
      simp [FriendViewSet.accept_request, FriendViewSet.reject_request,
        hres, hne]
  · intro heq
    constructor <;>
      simp [FriendViewSet.accept_request, FriendViewSet.reject_request,
        hres, heq]

/-- C8 witness: the sample request fr0 is addressed to bob; alice posting
its id gets 400 and no lifecycle call, bob posting it gets 201 with the
accept call. -/
theorem C8_witness :
    getFRByPk (List.lookup "id" [("id", "7")]) [fr0] = Except.ok fr0 ∧
    fr0.to_user ≠ alice ∧
    FriendViewSet.accept_request ⟨alice, [("id", "7")]⟩ [fr0] =
      (Except.ok ⟨400, msgBody "Request for current user not found."⟩, []) ∧
    FriendViewSet.accept_request ⟨bob, [("id", "7")]⟩ [fr0] =
      (Except.ok ⟨201, msgBody "Request accepted, user added to friends."⟩,
       [LibCall.acceptReq fr0]) :=
  ⟨rfl, by decide,
   ((C8_ownership_check ⟨alice, [("id", "7")]⟩ [fr0] fr0 rfl).1
     (by decide)).1,
   ((C8_ownership_check ⟨bob, [("id", "7")]⟩ [fr0] fr0 rfl).2
     (by decide)).1⟩

/-- The payload with every `id` entry removed; two payloads differ only in
the presence or value of an `id` key exactly when their `eraseId` images
agree. -/
def eraseId (d : List (String × String)) : List (String × String) :=
  d.filter (fun kv => kv.1 != "id")

/-- Looking up a key other than `id` is unaffected by dropping the `id`
entries. -/
theorem lookup_eraseId (k : String) (hk : k ≠ "id") :
    ∀ d : List (String × String), (eraseId d).lookup k = d.lookup k := by
  intro d
  induction d with
  | nil => rfl
  | cons hd tl ih =>
    obtain ⟨a, b⟩ := hd
    simp only [eraseId, List.filter_cons] at ih ⊢
    by_cases ha : a = "id"
    · subst ha
      have hka : (k == "id") = false := by
        simp [hk]
      simp only [bne_self_eq_false, List.lookup_cons, hka]
      exact ih
    · have hfa : (a != "id") = true := by
        simp [ha]
      simp only [hfa, if_true, List.lookup_cons]
      cases hak : (k == a) with
      | true => rfl
      | false => exact ih

/-- With `allow_id=False`, `get_user_from_friend_data` reads the payload
only through the `username`, `to_user` and `email` keys, so the collected
`user_data` equals that of the id-stripped payload. -/
theorem buildUserData_eraseId (d : List (String × String)) :
    buildUserData d false = buildUserData (eraseId d) false := by
  unfold buildUserData
  rw [lookup_eraseId "username" (by decide) d,
    lookup_eraseId "to_user" (by decide) d,
    lookup_eraseId "email" (by decide) d]
  rfl

/-- C9: add_friend never resolves its target by numeric id: any two
payloads that differ only in the presence or value of an `id` key (their
id-stripped forms agree) resolve to the same target user or 404 outcome
under the add_friend resolution (`allow_id=False`); whereas the
remove_friend resolution (`allow_id=True`) does honour an `id` key, as a
concrete pair of payloads differing only in `id` shows. -/
theorem C9_add_friend_ignores_id :
    (∀ d1 d2 : List (String × String), ∀ db : List User,
      eraseId d1 = eraseId d2 →
      get_user_from_friend_data d1 false db =
        get_user_from_friend_data d2 false db) ∧
    eraseId [("username", "bob"), ("id", "1")] = eraseId [("username", "bob")] ∧
    get_user_from_friend_data [("username", "bob"), ("id", "1")] true db0 ≠
      get_user_from_friend_data [("username", "bob")] true db0 := by
  refine ⟨fun d1 d2 db h => ?_, rfl, ?_⟩
  · unfold get_user_from_friend_data
    rw [buildUserData_eraseId d1, buildUserData_eraseId d2, h]
  · intro h
    exact Except.noConfusion h

/-- C9 witness: a payload with a spurious `id` key and the same payload
without it resolve identically under the add_friend resolution. -/
theorem C9_witness :
    eraseId [("username", "bob"), ("id", "9")] = eraseId [("username", "bob")] ∧
    get_user_from_friend_data [("username", "bob"), ("id", "9")] false db0 =
      get_user_from_friend_data [("username", "bob")] false db0 :=
  ⟨rfl,
   C9_add_friend_ignores_id.1 [("username", "bob"), ("id", "9")]
     [("username", "bob")] db0 rfl⟩

end RestFriendship
